import Mathlib

/-!
# Verification of the Moen smart-faucet integration core

Shallow embedding of `custom_components/moen_faucet/client.py` (token
lifecycle, device listing, authenticated operations) and of
`custom_components/moen_smart_water/coordinator.py` (the polling cycle),
together with the entity projections of `sensor.py` / `number.py`.

Network interactions are modelled by explicit environment records: each
HTTP exchange the code may perform is a field holding either `none`
(a raised `requests` exception) or the response (status code plus the
parsed body fields the code reads). Time (`time.time()`) is an explicit
integer parameter. Mutable object state is threaded explicitly.
-/

namespace Moen

/-- A JSON-like value: the shapes the shadow/detail documents use. -/
inductive JVal where
  | str : String → JVal
  | num : Rat → JVal
  | boolean : Bool → JVal
  | dict : List (String × JVal) → JVal

/-- A JSON object (Python `dict`), as an association list. -/
def Jdict := List (String × JVal)

instance : EmptyCollection Jdict := ⟨([] : List (String × JVal))⟩

/-- Python `d.get(k, default)` on a JSON object. -/
def Jdict.getD (d : Jdict) (k : String) (default : JVal) : JVal :=
  match List.lookup k d with
  | some v => v
  | none => default

/-- Python `d.get(k)` on a JSON object (`None` when the key is absent). -/
def Jdict.get (d : Jdict) (k : String) : Option JVal :=
  List.lookup k d

/-- A device record. The coordinator only reads `clientId` and `id`;
`none` models an absent key. -/
structure Device where
  clientId : Option String
  id : Option String
  nickname : Option String
deriving Repr, DecidableEq

/-- The `"token"` object of a login response body:
`data["token"]["access_token"]` and `data["token"]["expires_in"]`. -/
structure TokenJson where
  access_token : Option String
  expires_in : Option Int
deriving Repr, DecidableEq

/-- A login HTTP response: status code, and the parsed `"token"` field of
the JSON body (`none` when the body has no well-formed `"token"` object). -/
structure LoginResponse where
  status : Nat
  tokenField : Option TokenJson
deriving Repr, DecidableEq

/-- The mutable state of `MoenClient`: `self.token`, `self.expiry`,
`self._devices` (the device cache, `none` = Python `None`). -/
structure ClientState where
  token : Option String
  expiry : Int
  devices : Option (List Device)
deriving Repr, DecidableEq

/-- Python truthiness of `self.token` (`not self.token` is true for both
`None` and the empty string). -/
def pyTruthyStr : Option String → Bool
  | none => false
  | some s => !s.isEmpty

/-- Model of `MoenClient._try_login_endpoint`: on a 200 response whose body has
`token.access_token`, stores the token, sets
`expiry = now + expires_in(default 3600) - 60` and returns the data;
otherwise returns `none` (Python `None`) leaving the state unchanged.
A network-level exception is the `resp = none` case, also returning
`none` (the `except` clause). -/
def try_login_endpoint (resp : Option LoginResponse) (now : Int)
    (st : ClientState) : Option LoginResponse × ClientState :=
  match resp with
  | none => (none, st)
  | some r =>
    if r.status = 200 then
      match r.tokenField with
      | some tj =>
        match tj.access_token with
        | some a =>
          (some r,
           { st with token := some a,
                     expiry := now + tj.expires_in.getD 3600 - 60 })
        | none => (none, st)
      | none => (none, st)
    else (none, st)

/-- Model of `MoenClient.login`: tries the endpoint once; a `None` result raises
`RequestException("Login failed")`. -/
def login (resp : Option LoginResponse) (now : Int) (st : ClientState) :
    Except String Unit × ClientState :=
  match try_login_endpoint resp now st with
  | (some _, st₁) => (.ok (), st₁)
  | (none, st₁) => (.error "Login failed", st₁)

/-- The re-authentication condition of `ensure_auth`:
`not self.token or time.time() > self.expiry`. -/
def needsAuth (now : Int) (st : ClientState) : Bool :=
  !pyTruthyStr st.token || decide (now > st.expiry)

/-- Model of `MoenClient.ensure_auth`: re-login when the token is missing/falsy or
past expiry, otherwise return at once. -/
def ensure_auth (resp : Option LoginResponse) (now : Int)
    (st : ClientState) : Except String Unit × ClientState :=
  if needsAuth now st then login resp now st else (.ok (), st)

/-- A `/users/me` profile response: status and the parsed
`body["account"]["id"]` (`none` when absent). -/
structure ProfResp where
  status : Nat
  accountId : Option String
deriving Repr, DecidableEq

/-- A device-list GET response: status code and the JSON body (a list of
device records, read only on status 200). -/
structure DevResp where
  status : Nat
  devices : List Device
deriving Repr, DecidableEq

/-- A plain authenticated GET/POST response where only the status matters
for control flow; the body is an opaque JSON object. -/
structure HttpResp where
  status : Nat
  body : Jdict

/-- The network environment for the client's authenticated operations:
one field per HTTP exchange the code can perform. `none` is a raised
`requests.exceptions.RequestException`. `getPath`/`retryPath` give the
response of the first and (after a 401 re-login) second GET of each
device-list path. -/
structure ClientEnv where
  loginResp : Option LoginResponse
  profileResp : Option ProfResp
  getPath : String → Option DevResp
  retryPath : String → Option DevResp
  statusResp : Option HttpResp
  commandResp : Option HttpResp

/-- The token value attached to each authenticated HTTP request at the
moment it is issued (the session's bearer header source). -/
abbrev ReqTrace := List (Option String)

/-- Model of `MoenClient.get_user_profile`: `ensure_auth`, a token check,
then a GET of `/users/me` with `raise_for_status`. Returns the parsed
account id. -/
def get_user_profile (env : ClientEnv) (now : Int) (st : ClientState) :
    Except String (Option String) × ClientState × ReqTrace :=
  match ensure_auth env.loginResp now st with
  | (.error e, st₁) => (.error e, st₁, [])
  | (.ok _, st₁) =>
    if !pyTruthyStr st₁.token then
      (.error "No valid authentication token", st₁, [])
    else
      match env.profileResp with
      | none => (.error "request failed", st₁, [st₁.token])
      | some r =>
        if r.status ≥ 400 then (.error "http error", st₁, [st₁.token])
        else (.ok r.accountId, st₁, [st₁.token])

/-- The static candidate paths of `list_devices`. -/
def device_paths : List String :=
  ["/devices", "/users/me/devices", "/api/devices", "/v1/devices",
   "/prod/devices", "/accounts/devices", "/user/devices", "/my/devices",
   "/device/list", "/devices/list", "/api/v1/devices", "/v1/api/devices"]

/-- The account-specific paths appended when a truthy account id was
found in the profile. -/
def accountPaths (aid : String) : List String :=
  ["/accounts/" ++ aid ++ "/devices",
   "/account/" ++ aid ++ "/devices",
   "/users/" ++ aid ++ "/devices"]

/-- The per-path loop body of `list_devices`: GET the path; 403/404 and
exceptions continue to the next path; 401 re-logins and retries the same
path once (continuing on any failure there); 200 caches the body in
`self._devices` and returns it; any other status continues (either
`raise_for_status` throws into the catch-all, or control falls through). -/
def tryPaths (env : ClientEnv) (now : Int) :
    List String → ClientState →
    Except String (List Device) × ClientState × ReqTrace
  | [], st =>
    (.error "All device endpoints failed - check authentication", st, [])
  | p :: rest, st =>
    match env.getPath p with
    | none =>
      let (res, st₂, tr) := tryPaths env now rest st
      (res, st₂, st.token :: tr)
    | some r =>
      if r.status = 403 then
        let (res, st₂, tr) := tryPaths env now rest st
        (res, st₂, st.token :: tr)
      else if r.status = 401 then
        match login env.loginResp now st with
        | (.error _, st₁) =>
          let (res, st₂, tr) := tryPaths env now rest st₁
          (res, st₂, st.token :: tr)
        | (.ok _, st₁) =>
          match env.retryPath p with
          | none =>
            let (res, st₂, tr) := tryPaths env now rest st₁
            (res, st₂, st.token :: st₁.token :: tr)
          | some r₂ =>
            if r₂.status = 200 then
              (.ok r₂.devices, { st₁ with devices := some r₂.devices },
               [st.token, st₁.token])
            else
              let (res, st₂, tr) := tryPaths env now rest st₁
              (res, st₂, st.token :: st₁.token :: tr)
      else if r.status = 404 then
        let (res, st₂, tr) := tryPaths env now rest st
        (res, st₂, st.token :: tr)
      else if r.status = 200 then
        (.ok r.devices, { st with devices := some r.devices }, [st.token])
      else
        let (res, st₂, tr) := tryPaths env now rest st
        (res, st₂, st.token :: tr)

/-- The `account_id` the code keeps from the swallowed profile fetch:
`None` when the fetch raised. -/
def aidOf : Except String (Option String) → Option String
  | .ok a => a
  | .error _ => none

/-- The full probe list: the static paths, extended with the
account-specific ones when the account id is truthy. -/
def allPaths (aid : Option String) : List String :=
  device_paths ++
    (match aid with
     | some a => if a.isEmpty then [] else accountPaths a
     | none => [])

/-- Model of `MoenClient.list_devices`: `ensure_auth`, explicit token check, a
best-effort profile fetch whose failure is swallowed (`account_id = None`),
then the path-probing loop over the static paths plus, when a truthy
account id was found, the account-specific paths. -/
def list_devices (env : ClientEnv) (now : Int) (st : ClientState) :
    Except String (List Device) × ClientState × ReqTrace :=
  match ensure_auth env.loginResp now st with
  | (.error e, st₁) => (.error e, st₁, [])
  | (.ok _, st₁) =>
    if !pyTruthyStr st₁.token then
      (.error "No valid authentication token", st₁, [])
    else
      let prof := get_user_profile env now st₁
      let tp := tryPaths env now (allPaths (aidOf prof.1)) prof.2.1
      (tp.1, tp.2.1, prof.2.2 ++ tp.2.2)

/-- Model of `MoenClient.get_device_status`: `ensure_auth` then an authenticated
GET with `raise_for_status`. -/
def get_device_status (env : ClientEnv) (now : Int) (st : ClientState) :
    Except String Jdict × ClientState × ReqTrace :=
  match ensure_auth env.loginResp now st with
  | (.error e, st₁) => (.error e, st₁, [])
  | (.ok _, st₁) =>
    match env.statusResp with
    | none => (.error "request failed", st₁, [st₁.token])
    | some r =>
      if r.status ≥ 400 then (.error "http error", st₁, [st₁.token])
      else (.ok r.body, st₁, [st₁.token])

/-- Model of `MoenClient.send_command`: `ensure_auth` then an authenticated POST
with `raise_for_status`. -/
def send_command (env : ClientEnv) (now : Int) (st : ClientState) :
    Except String Jdict × ClientState × ReqTrace :=
  match ensure_auth env.loginResp now st with
  | (.error e, st₁) => (.error e, st₁, [])
  | (.ok _, st₁) =>
    match env.commandResp with
    | none => (.error "request failed", st₁, [st₁.token])
    | some r =>
      if r.status ≥ 400 then (.error "http error", st₁, [st₁.token])
      else (.ok r.body, st₁, [st₁.token])

/-- Python `self._devices or []`. -/
def pyListOr (x : Option (List Device)) : List Device :=
  match x with
  | none => []
  | some l => l

/-- Model of `MoenClient.get_devices`: lazily fill the cache via `list_devices`
when `self._devices is None`, then return `self._devices or []`. The last
component counts the `list_devices` invocations the call performed. -/
def get_devices (env : ClientEnv) (now : Int) (st : ClientState) :
    Except String (List Device) × ClientState × ReqTrace × Nat :=
  match st.devices with
  | some _ => (.ok (pyListOr st.devices), st, [], 0)
  | none =>
    let ld := list_devices env now st
    match ld.1 with
    | .error e => (.error e, ld.2.1, ld.2.2, 1)
    | .ok _ => (.ok (pyListOr (ld.2.1).devices), ld.2.1, ld.2.2, 1)

/-- Serialized auth: `n` calls to `ensure_auth` at the same instant, counting
how many of them invoke `login` (each needy call performs exactly one). -/
def ensureAuthSeq (resp : Option LoginResponse) (now : Int) :
    Nat → ClientState → ClientState × Nat
  | 0, st => (st, 0)
  | n + 1, st =>
    let needed := needsAuth now st
    let st₁ := (ensure_auth resp now st).2
    let (st₂, k) := ensureAuthSeq resp now n st₁
    (st₂, (if needed then 1 else 0) + k)

/-- Interleaved execution of several concurrent `ensure_auth` callers over
the shared client state. Each caller is a program counter: `0` = about to
evaluate the `ensure_auth` condition, `1` = condition was true, about to
call `login`, `2` = returned. One step of caller `i`; the `Nat` component
counts network logins performed. -/
def concStep (resp : Option LoginResponse) (now : Int)
    (st : ClientState) (cnt : Nat) (pcs : List Nat) (i : Nat) :
    ClientState × Nat × List Nat :=
  match pcs.get? i with
  | none => (st, cnt, pcs)
  | some 0 =>
    if needsAuth now st then (st, cnt, pcs.set i 1)
    else (st, cnt, pcs.set i 2)
  | some 1 => ((login resp now st).2, cnt + 1, pcs.set i 2)
  | some _ => (st, cnt, pcs)

/-- Run a schedule (a list of caller indices) over the shared state. -/
def runSchedule (resp : Option LoginResponse) (now : Int) :
    List Nat → ClientState → Nat → List Nat → ClientState × Nat × List Nat
  | [], st, cnt, pcs => (st, cnt, pcs)
  | i :: rest, st, cnt, pcs =>
    let (st₁, cnt₁, pcs₁) := concStep resp now st cnt pcs i
    runSchedule resp now rest st₁ cnt₁ pcs₁

/-! ## The polling coordinator (`moen_smart_water/coordinator.py`) -/

/-- The mutable caches of `MoenDataUpdateCoordinator`: `self._devices`,
`self._device_shadows`, `self._device_details`, and
`self._details_last_update` (`none` models the attribute not existing
yet — it is only assigned after a details refresh). -/
structure CoordState where
  devices : List (String × Device)
  shadows : List (String × Jdict)
  details : List (String × Jdict)
  detailsLastUpdate : Option Int

/-- The published `{devices, device_shadows, device_details}` snapshot. -/
structure Snapshot where
  devices : List (String × Device)
  shadows : List (String × Jdict)
  details : List (String × Jdict)

/-- The outcomes of the API calls one polling cycle may perform:
the directory fetch (`api.get_cached_devices`), the per-device shadow and
details fetches, and the token persistence step
(`api.get_tokens()` / `_store_tokens`); `.error` is a raised exception. -/
structure CoordEnv where
  directory : Except String (List Device)
  shadowFetch : String → Except String Jdict
  detailsFetch : String → Except String Jdict
  persistTokens : Except String Unit

/-- The key expression `device.get("clientId", device.get("id", ""))`. -/
def deviceKey (d : Device) : String :=
  d.clientId.getD (d.id.getD "")

/-- Insert into a Python-dict model: replace the value of an existing key,
otherwise append (preserving insertion order). -/
def dictInsert {α : Type} (m : List (String × α)) (k : String) (v : α) :
    List (String × α) :=
  match m with
  | [] => [(k, v)]
  | (k₁, v₁) :: rest =>
    if k₁ = k then (k₁, v) :: rest
    else (k₁, v₁) :: dictInsert rest k v

/-- The dict comprehension
`{device.get("clientId", device.get("id", "")): device for device in devices}`. -/
def buildDeviceMap (devs : List Device) : List (String × Device) :=
  devs.foldl (fun m d => dictInsert m (deviceKey d) d) []

/-- The per-device shadow loop: every device id gets an entry — the
fetched shadow, or the empty dict `{}` when the fetch raised. -/
def fetchShadows (fetch : String → Except String Jdict)
    (keys : List String) : List (String × Jdict) :=
  keys.map fun k =>
    (k, match fetch k with
        | .ok s => s
        | .error _ => ({} : Jdict))

/-- The details staleness test of the cycle:
refresh when `_details_last_update` does not exist yet or
`current_time - self._details_last_update > 300` (`_device_details`
always exists, it is initialised in `__init__`). -/
def detailsStale (now : Int) (st : CoordState) : Bool :=
  match st.detailsLastUpdate with
  | none => true
  | some last => decide (now - last > 300)

/-- Model of `MoenDataUpdateCoordinator._async_update_data`, one cycle:
directory fetch, device-map rebuild, per-device shadow loop (per-device
failures caught), conditional details refresh, token persistence, then
the published snapshot. Any uncaught exception is re-raised as
`UpdateFailed`; the returned state reflects exactly the attribute
assignments executed before the failure point. -/
def async_update_data (env : CoordEnv) (now : Int) (st : CoordState) :
    Except String Snapshot × CoordState :=
  match env.directory with
  | .error e => (.error ("Error communicating with Moen API: " ++ e), st)
  | .ok devs =>
    let devMap := buildDeviceMap devs
    let keys := devMap.map Prod.fst
    let shadows := fetchShadows env.shadowFetch keys
    let refresh := detailsStale now st
    let details :=
      if refresh then fetchShadows env.detailsFetch keys else st.details
    let lastUpd := if refresh then some now else st.detailsLastUpdate
    let st₁ : CoordState :=
      { devices := devMap, shadows := shadows, details := details,
        detailsLastUpdate := lastUpd }
    match env.persistTokens with
    | .error e => (.error ("Error communicating with Moen API: " ++ e), st₁)
    | .ok _ =>
      (.ok { devices := devMap, shadows := shadows, details := details },
       st₁)

/-! ## Entity projections (`sensor.py`, `number.py`) -/

/-- Python truthiness of the shadow returned by
`coordinator.get_device_shadow` (`None` or `{}` are falsy). -/
def shadowTruthy : Option Jdict → Bool
  | none => false
  | some d => !d.isEmpty

/-- Python `shadow.get(k, dict())` followed by treating the result as a dict for a
chained `.get`: `none` models the `AttributeError` Python would raise when
the value is not a dict. -/
def pyGetDict (d : Jdict) (k : String) : Option Jdict :=
  match d.getD k (.dict []) with
  | .dict m => some m
  | _ => none

/-- The chain `shadow.get("state", ...).get("reported", ...)` with dict defaults. -/
def reportedOf (shadow : Jdict) : Option Jdict := do
  let s ← pyGetDict shadow "state"
  pyGetDict s "reported"

/-- Model of `MoenFaucetStateSensor._handle_coordinator_update`: "running" when the
reported command equals `"run"`, "stopped" for `"stop"`, otherwise "idle";
"unknown" when the shadow is falsy. `none` models a crash on a non-dict
`state`/`reported` value (never hit by well-shaped shadows). -/
def faucetStateOf (shadow : Option Jdict) : Option String :=
  match shadow with
  | none => some "unknown"
  | some d =>
    if d.isEmpty then some "unknown"
    else do
      let rep ← reportedOf d
      pure (match rep.get "command" with
            | some (.str s) =>
              if s = "run" then "running"
              else if s = "stop" then "stopped"
              else "idle"
            | _ => "idle")

/-- Model of the `MoenTemperatureNumber` update: on a truthy shadow the native value
becomes `reported.get("temperature", 20.0)`; a falsy shadow leaves the
previous value. -/
def temperatureOf (shadow : Option Jdict) (prev : JVal) : Option JVal :=
  match shadow with
  | none => some prev
  | some d =>
    if d.isEmpty then some prev
    else do
      let rep ← reportedOf d
      pure (rep.getD "temperature" (.num 20))

/-! ## Statement helpers and concrete instances -/

/-- The `expires_in` value (with the code's 3600 default) a login with
this response would use; 3600 when no token object is present (the value
is then never read). -/
def respE (resp : Option LoginResponse) : Int :=
  match resp with
  | some r =>
    match r.tokenField with
    | some tj => tj.expires_in.getD 3600
    | none => 3600
  | none => 3600

/-- Whether an `Option JVal` is the string `"run"` or `"stop"` — the two
reported commands the state sensor distinguishes. -/
def isRunStop : Option JVal → Bool
  | some (.str s) => s = "run" || s = "stop"
  | _ => false

/-- A shadow of the scenario shape
`{"state": {"reported": rep}}`. -/
def shadowWithReported (rep : Jdict) : Jdict :=
  [("state", JVal.dict [("reported", JVal.dict rep)])]

/-- The scenario shadow
`{"state":{"reported":{"command":"run","temperature":22.5}}}`. -/
def runShadow : Jdict :=
  shadowWithReported
    [("command", JVal.str "run"), ("temperature", JVal.num (22.5 : ℚ))]

/-- An environment whose single working device endpoint is `/devices`:
the profile call succeeds without an account id, probing succeeds at the
first path. Used for the caching claim. -/
def C5env : ClientEnv :=
  { loginResp := none,
    profileResp := some ⟨200, none⟩,
    getPath := fun p =>
      if p = "/devices" then some ⟨200, [⟨some "d1", none, none⟩]⟩
      else none,
    retryPath := fun _ => none,
    statusResp := none,
    commandResp := none }

/-- A client state holding a fresh valid token and an unfilled device
cache. -/
def C5st : ClientState := ⟨some "tok", 1000, none⟩

/-- An environment for the failed-auth case: the login endpoint is
unreachable and every other exchange fails too. -/
def C3wEnv : ClientEnv :=
  { loginResp := none,
    profileResp := none,
    getPath := fun _ => none,
    retryPath := fun _ => none,
    statusResp := none,
    commandResp := none }

/-- A coordinator environment where the directory returns one new device,
both per-device fetches succeed with `{}`, but persisting the refreshed
tokens raises. -/
def C7env : CoordEnv :=
  { directory := .ok [⟨some "b", none, none⟩],
    shadowFetch := fun _ => .ok ({} : Jdict),
    detailsFetch := fun _ => .ok ({} : Jdict),
    persistTokens := .error "store failed" }

/-- A coordinator state with known good caches for a device `"a"`. -/
def C7st : CoordState :=
  { devices := [("a", ⟨some "a", none, none⟩)],
    shadows := [("a", ({} : Jdict))],
    details := [("a", ({} : Jdict))],
    detailsLastUpdate := some 0 }

/-- A coordinator environment with two devices where the shadow fetch of
`"b"` raises and everything else succeeds. -/
def C4wEnv : CoordEnv :=
  { directory := .ok [⟨some "a", none, none⟩, ⟨some "b", none, none⟩],
    shadowFetch := fun k =>
      if k = "b" then .error "boom"
      else .ok [("ok", JVal.boolean true)],
    detailsFetch := fun _ => .ok ({} : Jdict),
    persistTokens := .ok () }

/-- The empty coordinator state (fresh integration start). -/
def emptyCoordState : CoordState :=
  { devices := [], shadows := [], details := [], detailsLastUpdate := none }

/-! ## Helper lemmas -/

lemma pyTruthy_isSome {t : Option String} (h : pyTruthyStr t = true) :
    t.isSome = true := by
  cases t <;> simp [pyTruthyStr] at h ⊢

lemma try_login_cases (resp : Option LoginResponse) (now : Int)
    (st : ClientState) :
    try_login_endpoint resp now st = (none, st)
    ∨ ∃ r tj a, resp = some r ∧ r.status = 200 ∧ r.tokenField = some tj ∧
        tj.access_token = some a ∧
        try_login_endpoint resp now st =
          (some r, { st with token := some a,
                             expiry := now + tj.expires_in.getD 3600 - 60 }) := by
  cases resp with
  | none => exact Or.inl rfl
  | some r =>
    by_cases hs : r.status = 200
    · cases htf : r.tokenField with
      | none => exact Or.inl (by simp [try_login_endpoint, hs, htf])
      | some tj =>
        cases ha : tj.access_token with
        | none => exact Or.inl (by simp [try_login_endpoint, hs, htf, ha])
        | some a =>
          exact Or.inr ⟨r, tj, a, rfl, hs, htf, ha,
            by simp [try_login_endpoint, hs, htf, ha]⟩
    · exact Or.inl (by simp [try_login_endpoint, hs])

lemma login_cases (resp : Option LoginResponse) (now : Int)
    (st : ClientState) :
    login resp now st = (.error "Login failed", st)
    ∨ ∃ r tj a, resp = some r ∧ r.status = 200 ∧ r.tokenField = some tj ∧
        tj.access_token = some a ∧
        login resp now st =
          (.ok (), { st with token := some a,
                             expiry := now + tj.expires_in.getD 3600 - 60 }) := by
  rcases try_login_cases resp now st with h | ⟨r, tj, a, hr, hs, htf, ha, h⟩
  · exact Or.inl (by simp [login, h])
  · exact Or.inr ⟨r, tj, a, hr, hs, htf, ha, by simp [login, h]⟩

lemma login_ok_shape {resp : Option LoginResponse} {now : Int}
    {st : ClientState} (h : (login resp now st).1 = .ok ()) :
    ∃ r tj a, resp = some r ∧ r.status = 200 ∧ r.tokenField = some tj ∧
      tj.access_token = some a ∧
      login resp now st =
        (.ok (), { st with token := some a,
                           expiry := now + tj.expires_in.getD 3600 - 60 }) := by
  rcases login_cases resp now st with hc | hc
  · rw [hc] at h; exact absurd h (by simp)
  · exact hc

lemma login_fail_state {resp : Option LoginResponse} {now : Int}
    {st : ClientState} (h : (login resp now st).1 ≠ .ok ()) :
    login resp now st = (.error "Login failed", st) := by
  rcases login_cases resp now st with hc | ⟨r, tj, a, _, _, _, _, hc⟩
  · exact hc
  · rw [hc] at h; exact absurd rfl h

lemma login_token_isSome {resp : Option LoginResponse} {now : Int}
    {st : ClientState} (h : st.token.isSome = true) :
    ((login resp now st).2).token.isSome = true := by
  rcases login_cases resp now st with hc | ⟨r, tj, a, _, _, _, _, hc⟩
  · rw [hc]; exact h
  · rw [hc]; rfl

lemma needsAuth_false_truthy {now : Int} {st : ClientState}
    (h : needsAuth now st = false) : pyTruthyStr st.token = true := by
  simp only [needsAuth, Bool.or_eq_false_iff, Bool.not_eq_false'] at h
  exact h.1

lemma ensure_auth_ok_isSome {resp : Option LoginResponse} {now : Int}
    {st : ClientState} (h : (ensure_auth resp now st).1 = .ok ()) :
    ((ensure_auth resp now st).2).token.isSome = true := by
  by_cases hn : needsAuth now st
  · simp only [ensure_auth, hn, if_true] at h ⊢
    rcases login_ok_shape h with ⟨r, tj, a, _, _, _, _, hc⟩
    rw [hc]; rfl
  · simp only [ensure_auth, hn, if_false, Bool.false_eq_true] at h ⊢
    exact pyTruthy_isSome (needsAuth_false_truthy (Bool.eq_false_iff.mpr hn))

lemma ensure_auth_token_isSome {resp : Option LoginResponse} {now : Int}
    {st : ClientState} (h : st.token.isSome = true) :
    ((ensure_auth resp now st).2).token.isSome = true := by
  by_cases hn : needsAuth now st
  · simp only [ensure_auth, hn, if_true]
    exact login_token_isSome h
  · simp only [ensure_auth, hn, Bool.false_eq_true, if_false]
    exact h

lemma tryPaths_invariant (env : ClientEnv) (now : Int)
    (paths : List String) :
    ∀ st : ClientState, st.token.isSome = true →
      ((tryPaths env now paths st).2.2.all Option.isSome = true)
      ∧ ((tryPaths env now paths st).2.1.token.isSome = true) := by
  induction paths with
  | nil => intro st h; exact ⟨rfl, h⟩
  | cons p rest ih =>
    intro st h
    rcases htp : tryPaths env now rest st with ⟨res, st₂, tr⟩
    obtain ⟨h1, h2⟩ := ih st h
    rw [htp] at h1 h2
    cases hg : env.getPath p with
    | none => simp [tryPaths, hg, htp, h, h1, h2]
    | some r =>
      by_cases h403 : r.status = 403
      · simp [tryPaths, hg, h403, htp, h, h1, h2]
      · by_cases h401 : r.status = 401
        · rcases hl : login env.loginResp now st with ⟨lres, st₁⟩
          have hst₁ : st₁.token.isSome = true := by
            have := @login_token_isSome env.loginResp now st h
            rw [hl] at this; exact this
          rcases htp₁ : tryPaths env now rest st₁ with ⟨res₁, st₃, tr₁⟩
          obtain ⟨h3, h4⟩ := ih st₁ hst₁
          rw [htp₁] at h3 h4
          cases lres with
          | error e =>
            simp [tryPaths, hg, h403, h401, hl, htp₁, h, hst₁, h3, h4]
          | ok u =>
            cases hrp : env.retryPath p with
            | none =>
              simp [tryPaths, hg, h403, h401, hl, hrp, htp₁, h, hst₁, h3, h4]
            | some r₂ =>
              by_cases h200r : r₂.status = 200
              · simp [tryPaths, hg, h403, h401, hl, hrp, h200r, h, hst₁]
              · simp [tryPaths, hg, h403, h401, hl, hrp, h200r, htp₁, h,
                      hst₁, h3, h4]
        · by_cases h404 : r.status = 404
          · simp [tryPaths, hg, h403, h401, h404, htp, h, h1, h2]
          · by_cases h200 : r.status = 200
            · simp [tryPaths, hg, h403, h401, h404, h200, h]
            · simp [tryPaths, hg, h403, h401, h404, h200, htp, h, h1, h2]

lemma tryPaths_ok_devices (env : ClientEnv) (now : Int)
    (paths : List String) :
    ∀ (st : ClientState) (ds : List Device),
      (tryPaths env now paths st).1 = .ok ds →
      ((tryPaths env now paths st).2.1).devices = some ds := by
  induction paths with
  | nil => intro st ds h; exact absurd h (by simp [tryPaths])
  | cons p rest ih =>
    intro st ds h
    rcases htp : tryPaths env now rest st with ⟨res, st₂, tr⟩
    cases hg : env.getPath p with
    | none =>
      simp only [tryPaths, hg, htp] at h ⊢
      have := ih st ds (by rw [htp]; exact h)
      rw [htp] at this; exact this
    | some r =>
      by_cases h403 : r.status = 403
      · simp only [tryPaths, hg, h403, if_true, htp] at h ⊢
        have := ih st ds (by rw [htp]; exact h)
        rw [htp] at this; exact this
      · by_cases h401 : r.status = 401
        · rcases hl : login env.loginResp now st with ⟨lres, st₁⟩
          rcases htp₁ : tryPaths env now rest st₁ with ⟨res₁, st₃, tr₁⟩
          cases lres with
          | error e =>
            simp only [tryPaths, hg, h403, h401, hl, htp₁, if_true,
              if_false] at h ⊢
            have := ih st₁ ds (by rw [htp₁]; exact h)
            rw [htp₁] at this; exact this
          | ok u =>
            cases hrp : env.retryPath p with
            | none =>
              simp only [tryPaths, hg, h403, h401, hl, hrp, htp₁] at h ⊢
              have := ih st₁ ds (by rw [htp₁]; exact h)
              rw [htp₁] at this; exact this
            | some r₂ =>
              by_cases h200r : r₂.status = 200
              · simp only [tryPaths, hg, h403, h401, hl, hrp, h200r] at h ⊢
                simp at h ⊢
                simp [← h]
              · simp only [tryPaths, hg, h403, h401, hl, hrp, h200r,
                  htp₁] at h ⊢
                have := ih st₁ ds (by rw [htp₁]; exact h)
                rw [htp₁] at this; exact this
        · by_cases h404 : r.status = 404
          · simp only [tryPaths, hg, h403, h401, h404, htp] at h ⊢
            have := ih st ds (by rw [htp]; exact h)
            rw [htp] at this; exact this
          · by_cases h200 : r.status = 200
            · simp only [tryPaths, hg, h403, h401, h404, h200] at h ⊢
              simp at h ⊢
              simp [← h]
            · simp only [tryPaths, hg, h403, h401, h404, h200, htp] at h ⊢
              have := ih st ds (by rw [htp]; exact h)
              rw [htp] at this; exact this

lemma get_user_profile_trace (env : ClientEnv) (now : Int)
    (st : ClientState) :
    (get_user_profile env now st).2.2.all Option.isSome = true := by
  rcases hea : ensure_auth env.loginResp now st with ⟨res, st₁⟩
  cases res with
  | error e => simp [get_user_profile, hea]
  | ok u =>
    cases ht : pyTruthyStr st₁.token with
    | false => simp [get_user_profile, hea, ht]
    | true =>
      have hs : st₁.token.isSome = true := pyTruthy_isSome ht
      cases hp : env.profileResp with
      | none => simp [get_user_profile, hea, ht, hp, hs]
      | some r =>
        by_cases h4 : r.status ≥ 400 <;>
          simp [get_user_profile, hea, ht, hp, h4, hs]

lemma get_user_profile_token (env : ClientEnv) (now : Int)
    (st : ClientState) (h : st.token.isSome = true) :
    ((get_user_profile env now st).2.1).token.isSome = true := by
  have hst₁ := @ensure_auth_token_isSome env.loginResp now st h
  rcases hea : ensure_auth env.loginResp now st with ⟨res, st₁⟩
  rw [hea] at hst₁
  cases res with
  | error e => simpa [get_user_profile, hea] using hst₁
  | ok u =>
    cases ht : pyTruthyStr st₁.token with
    | false => simpa [get_user_profile, hea, ht] using hst₁
    | true =>
      cases hp : env.profileResp with
      | none => simpa [get_user_profile, hea, ht, hp] using hst₁
      | some r =>
        by_cases h4 : r.status ≥ 400 <;>
          simpa [get_user_profile, hea, ht, hp, h4] using hst₁

lemma list_devices_trace (env : ClientEnv) (now : Int) (st : ClientState) :
    (list_devices env now st).2.2.all Option.isSome = true := by
  rcases hea : ensure_auth env.loginResp now st with ⟨res, st₁⟩
  cases res with
  | error e => simp [list_devices, hea]
  | ok u =>
    cases ht : pyTruthyStr st₁.token with
    | false => simp [list_devices, hea, ht]
    | true =>
      have hs₁ : st₁.token.isSome = true := pyTruthy_isSome ht
      rcases hup : get_user_profile env now st₁ with ⟨pres, st₂, tr₂⟩
      have htr₂ : tr₂.all Option.isSome = true := by
        have := get_user_profile_trace env now st₁
        rw [hup] at this; exact this
      have hs₂ : st₂.token.isSome = true := by
        have := get_user_profile_token env now st₁ hs₁
        rw [hup] at this; exact this
      rcases htp : tryPaths env now (allPaths (aidOf pres)) st₂
        with ⟨res₃, st₃, tr₃⟩
      have htr₃ := (tryPaths_invariant env now (allPaths (aidOf pres))
        st₂ hs₂).1
      rw [htp] at htr₃
      simp [list_devices, hea, ht, hup, htp, List.all_append, htr₂, htr₃]

set_option maxHeartbeats 1000000 in
lemma list_devices_ok_devices (env : ClientEnv) (now : Int)
    (st : ClientState) (ds : List Device)
    (h : (list_devices env now st).1 = .ok ds) :
    ((list_devices env now st).2.1).devices = some ds := by
  rcases hea : ensure_auth env.loginResp now st with ⟨res, st₁⟩
  cases res with
  | error e => simp [list_devices, hea] at h
  | ok u =>
    cases ht : pyTruthyStr st₁.token with
    | false => simp [list_devices, hea, ht] at h
    | true =>
      rcases hup : get_user_profile env now st₁ with ⟨pres, st₂, tr₂⟩
      rcases htp : tryPaths env now (allPaths (aidOf pres)) st₂
        with ⟨res₃, st₃, tr₃⟩
      have hod := tryPaths_ok_devices env now (allPaths (aidOf pres)) st₂ ds
      rw [htp] at hod
      simp only [list_devices, hea, ht, Bool.not_true, Bool.false_eq_true,
        if_false, hup, htp] at h ⊢
      exact hod (by simp [h])

lemma lookup_map_self {β : Type} (f : String → β) :
    ∀ (keys : List String) (k : String), k ∈ keys →
      List.lookup k (keys.map fun x => (x, f x)) = some (f k) := by
  intro keys
  induction keys with
  | nil => intro k h; cases h
  | cons x xs ih =>
    intro k h
    by_cases hk : k = x
    · subst hk; simp [List.lookup]
    · have hm : k ∈ xs := by
        rcases List.mem_cons.mp h with h1 | h1
        · exact absurd h1 hk
        · exact h1
      simp [List.lookup, beq_eq_false_iff_ne.mpr hk, ih k hm]

lemma fetchShadows_fst (fetch : String → Except String Jdict)
    (keys : List String) :
    (fetchShadows fetch keys).map Prod.fst = keys := by
  induction keys with
  | nil => rfl
  | cons x xs ih => simp only [fetchShadows, List.map_cons] at ih ⊢; rw [ih]

lemma fetchShadows_lookup (fetch : String → Except String Jdict)
    (keys : List String) (k : String) (hk : k ∈ keys) :
    List.lookup k (fetchShadows fetch keys) =
      some (match fetch k with
            | .ok s => s
            | .error _ => ({} : Jdict)) :=
  lookup_map_self _ keys k hk

lemma needsAuth_false_le {now : Int} {st : ClientState}
    (h : needsAuth now st = false) : now ≤ st.expiry := by
  simp only [needsAuth, Bool.or_eq_false_iff, decide_eq_false_iff_not,
    not_lt] at h
  exact h.2

lemma ensureAuthSeq_stable (resp : Option LoginResponse) (now : Int) :
    ∀ (n : Nat) (st : ClientState), needsAuth now st = false →
      ensureAuthSeq resp now n st = (st, 0) := by
  intro n
  induction n with
  | zero => intro st h; rfl
  | succ m ih =>
    intro st h
    simp only [ensureAuthSeq, ensure_auth, h, Bool.false_eq_true, if_false,
      ih st h]

/-! ## Claim theorems -/

/-- C1, counterexample to the claim as stated. Two concrete runs refute
"whenever `ensure_auth` returns successfully at time `t`, `expiry > t`":
(i) with a stored token and `t = expiry` the guard `t > expiry` is false,
so `ensure_auth` returns successfully while `expiry = t`, not `> t`;
(ii) with no token and a successful login whose `expires_in` is 30 (less
than the 60-second buffer), `ensure_auth` returns successfully with
`expiry = t + 30 - 60 < t`, an already-passed expiry. -/
theorem C1_counterexample :
    ((ensure_auth none 100 ⟨some "tok", 100, none⟩).1 = .ok ()
      ∧ ¬ (100 < (ensure_auth none 100 ⟨some "tok", 100, none⟩).2.expiry))
    ∧ ((ensure_auth (some ⟨200, some ⟨some "t1", some 30⟩⟩) 0
          ⟨none, 0, none⟩).1 = .ok ()
      ∧ (ensure_auth (some ⟨200, some ⟨some "t1", some 30⟩⟩) 0
          ⟨none, 0, none⟩).2.expiry < 0) := by
  exact ⟨⟨rfl, by decide⟩, ⟨rfl, by decide⟩⟩

/-- C1 (amended): when every login response carries
`expires_in ≥ 60` (the buffer), a successful `ensure_auth` at time `now`
leaves `expiry ≥ now` (equality is reached at `now = expiry`, where the
strict claim fails); and when a login was actually triggered and
`expires_in > 60`, the new expiry is strictly in the future. -/
theorem C1_token_validity (resp : Option LoginResponse) (now : Int)
    (st : ClientState)
    (hok : (ensure_auth resp now st).1 = .ok ())
    (hbuf : 60 ≤ respE resp) :
    now ≤ ((ensure_auth resp now st).2).expiry
    ∧ (needsAuth now st = true → 60 < respE resp →
        now < ((ensure_auth resp now st).2).expiry) := by
  by_cases hn : needsAuth now st
  · simp only [ensure_auth, hn, if_true] at hok ⊢
    rcases login_ok_shape hok with ⟨r, tj, a, hr, hs, htf, ha, hc⟩
    have he : respE resp = tj.expires_in.getD 3600 := by
      rw [hr]; simp [respE, htf]
    rw [he] at hbuf
    rw [hc]
    refine ⟨by simp; omega, fun _ hlt => by rw [he] at hlt; simp; omega⟩
  · have hn' : needsAuth now st = false := Bool.eq_false_iff.mpr hn
    simp only [ensure_auth, hn', Bool.false_eq_true, if_false]
    exact ⟨needsAuth_false_le hn', fun h _ => absurd h (by simp [hn'])⟩

/-- C1 witness: a fresh client logging in at time 0 with
`expires_in = 3600` satisfies the amended bound. -/
theorem C1_token_validity_witness :
    0 ≤ ((ensure_auth (some ⟨200, some ⟨some "t1", some 3600⟩⟩) 0
          ⟨none, 0, none⟩).2).expiry :=
  (C1_token_validity (some ⟨200, some ⟨some "t1", some 3600⟩⟩) 0
    ⟨none, 0, none⟩ rfl (by decide)).1

/-- C2: `login` stores the token set and
`expiry = now + expires_in(default 3600) - 60` exactly on a 200 response
containing `token.access_token`; on a non-200 status, a missing
`token`/`access_token` field, or a network error it raises and leaves the
state unchanged. -/
theorem C2_login_contract (now : Int) (st : ClientState)
    (r : LoginResponse) :
    (∀ tj a, r.status = 200 → r.tokenField = some tj →
       tj.access_token = some a →
       login (some r) now st =
         (.ok (), { st with token := some a,
                            expiry := now + tj.expires_in.getD 3600 - 60 }))
    ∧ (r.status ≠ 200 →
        login (some r) now st = (.error "Login failed", st))
    ∧ (∀ tj, r.tokenField = some tj → tj.access_token = none →
        login (some r) now st = (.error "Login failed", st))
    ∧ (r.tokenField = none →
        login (some r) now st = (.error "Login failed", st))
    ∧ login (none : Option LoginResponse) now st =
        (.error "Login failed", st) := by
  refine ⟨?_, ?_, ?_, ?_, rfl⟩
  · intro tj a hs htf ha; simp [login, try_login_endpoint, hs, htf, ha]
  · intro hs; simp [login, try_login_endpoint, hs]
  · intro tj htf ha; by_cases hs : r.status = 200 <;>
      simp [login, try_login_endpoint, hs, htf, ha]
  · intro htf; by_cases hs : r.status = 200 <;>
      simp [login, try_login_endpoint, hs, htf]

/-- C2 witness: logging in at time 0 against a 200 response with
`access_token = "t1"`, `expires_in = 3600` stores exactly that token and
`expiry = 0 + 3600 - 60`. -/
theorem C2_login_contract_witness :
    login (some ⟨200, some ⟨some "t1", some 3600⟩⟩) 0 ⟨none, 0, none⟩ =
      (.ok (), ⟨some "t1", 0 + (3600 : Int) - 60, none⟩) :=
  (C2_login_contract 0 ⟨none, 0, none⟩ ⟨200, some ⟨some "t1", some 3600⟩⟩).1
    ⟨some "t1", some 3600⟩ "t1" rfl rfl rfl

/-- C3: every authenticated operation (`get_user_profile`,
`list_devices`, `get_device_status`, `send_command`) starts with
`ensure_auth`: every authenticated HTTP request any of them issues
carries a stored token (the request trace contains only `some` tokens),
and when `ensure_auth` fails — the token was absent/expired and the
transparent login raised — no authenticated request is issued at all. -/
theorem C3_ops_require_auth (env : ClientEnv) (now : Int)
    (st : ClientState) :
    ((get_user_profile env now st).2.2.all Option.isSome = true)
    ∧ ((list_devices env now st).2.2.all Option.isSome = true)
    ∧ ((get_device_status env now st).2.2.all Option.isSome = true)
    ∧ ((send_command env now st).2.2.all Option.isSome = true)
    ∧ ((ensure_auth env.loginResp now st).1 = .error "Login failed" →
        (get_user_profile env now st).2.2 = []
        ∧ (list_devices env now st).2.2 = []
        ∧ (get_device_status env now st).2.2 = []
        ∧ (send_command env now st).2.2 = []) := by
  refine ⟨get_user_profile_trace env now st, list_devices_trace env now st,
    ?_, ?_, ?_⟩
  · rcases hea : ensure_auth env.loginResp now st with ⟨res, st₁⟩
    cases res with
    | error e => simp [get_device_status, hea]
    | ok u =>
      have hs : st₁.token.isSome = true := by
        have := @ensure_auth_ok_isSome env.loginResp now st (by rw [hea])
        rw [hea] at this; exact this
      cases hr : env.statusResp with
      | none => simp [get_device_status, hea, hr, hs]
      | some r =>
        by_cases h4 : r.status ≥ 400 <;>
          simp [get_device_status, hea, hr, h4, hs]
  · rcases hea : ensure_auth env.loginResp now st with ⟨res, st₁⟩
    cases res with
    | error e => simp [send_command, hea]
    | ok u =>
      have hs : st₁.token.isSome = true := by
        have := @ensure_auth_ok_isSome env.loginResp now st (by rw [hea])
        rw [hea] at this; exact this
      cases hr : env.commandResp with
      | none => simp [send_command, hea, hr, hs]
      | some r =>
        by_cases h4 : r.status ≥ 400 <;>
          simp [send_command, hea, hr, h4, hs]
  · intro herr
    rcases hea : ensure_auth env.loginResp now st with ⟨res, st₁⟩
    rw [hea] at herr
    cases res with
    | ok u => exact absurd herr (by simp)
    | error e =>
      exact ⟨by simp [get_user_profile, hea], by simp [list_devices, hea],
        by simp [get_device_status, hea], by simp [send_command, hea]⟩

/-- C3 witness: with an unreachable login endpoint and no stored token,
`ensure_auth` fails and none of the four operations issues any
authenticated request. -/
theorem C3_ops_require_auth_witness :
    (get_user_profile C3wEnv 0 ⟨none, 0, none⟩).2.2 = []
    ∧ (list_devices C3wEnv 0 ⟨none, 0, none⟩).2.2 = []
    ∧ (get_device_status C3wEnv 0 ⟨none, 0, none⟩).2.2 = []
    ∧ (send_command C3wEnv 0 ⟨none, 0, none⟩).2.2 = [] :=
  (C3_ops_require_auth C3wEnv 0 ⟨none, 0, none⟩).2.2.2.2 rfl

/-- C4: when the directory fetch and the token-persistence step succeed,
the polling cycle succeeds — per-device shadow failures never abort it —
and the published snapshot maps every device id to its fetched shadow,
with the empty shadow `{}` substituted exactly for the devices whose
fetch raised. -/
theorem C4_shadow_isolation (env : CoordEnv) (now : Int) (st : CoordState)
    (devs : List Device) (hdir : env.directory = .ok devs)
    (hp : env.persistTokens = .ok ()) :
    ∃ snap, (async_update_data env now st).1 = .ok snap ∧
      ∀ k ∈ snap.devices.map Prod.fst,
        List.lookup k snap.shadows =
          some (match env.shadowFetch k with
                | .ok s => s
                | .error _ => ({} : Jdict)) := by
  refine ⟨⟨buildDeviceMap devs,
    fetchShadows env.shadowFetch ((buildDeviceMap devs).map Prod.fst),
    if detailsStale now st then
      fetchShadows env.detailsFetch ((buildDeviceMap devs).map Prod.fst)
    else st.details⟩, ?_, ?_⟩
  · simp [async_update_data, hdir, hp]
  · intro k hk
    exact fetchShadows_lookup env.shadowFetch _ k hk

/-- C4 witness: two devices, device `"b"`'s shadow fetch raising — the
cycle still succeeds and publishes `"a"`'s shadow and `{}` for `"b"`. -/
theorem C4_shadow_isolation_witness :
    ∃ snap, (async_update_data C4wEnv 0 emptyCoordState).1 = .ok snap ∧
      ∀ k ∈ snap.devices.map Prod.fst,
        List.lookup k snap.shadows =
          some (match C4wEnv.shadowFetch k with
                | .ok s => s
                | .error _ => ({} : Jdict)) :=
  C4_shadow_isolation C4wEnv 0 emptyCoordState
    [⟨some "a", none, none⟩, ⟨some "b", none, none⟩] rfl rfl

/-- C10: after every successful polling cycle the published shadow map
carries exactly the same device-id keys, in the same order, as the
published device map: a shadow lookup for a directory device never
misses. -/
theorem C10_snapshot_keys (env : CoordEnv) (now : Int) (st : CoordState)
    (snap : Snapshot)
    (hok : (async_update_data env now st).1 = .ok snap) :
    snap.shadows.map Prod.fst = snap.devices.map Prod.fst := by
  cases hdir : env.directory with
  | error e => simp [async_update_data, hdir] at hok
  | ok devs =>
    cases hp : env.persistTokens with
    | error e => simp [async_update_data, hdir, hp] at hok
    | ok u =>
      simp only [async_update_data, hdir, hp, Except.ok.injEq] at hok
      rw [← hok]
      exact fetchShadows_fst env.shadowFetch _

/-- C10 witness: the key sets agree on the concrete two-device cycle. -/
theorem C10_snapshot_keys_witness :
    (Snapshot.shadows
        ⟨[("a", ⟨some "a", none, none⟩), ("b", ⟨some "b", none, none⟩)],
         [("a", [("ok", JVal.boolean true)]), ("b", ([] : Jdict))],
         [("a", ([] : Jdict)), ("b", ([] : Jdict))]⟩).map Prod.fst =
      (Snapshot.devices
        ⟨[("a", ⟨some "a", none, none⟩), ("b", ⟨some "b", none, none⟩)],
         [("a", [("ok", JVal.boolean true)]), ("b", ([] : Jdict))],
         [("a", ([] : Jdict)), ("b", ([] : Jdict))]⟩).map Prod.fst :=
  C10_snapshot_keys C4wEnv 0 emptyCoordState _ rfl

/-- C6: given a successful directory fetch, the cycle refreshes the
details of all devices exactly when there was no prior details fetch or
the cache age strictly exceeds 300 seconds (`detailsStale`), stamping the
refresh time; otherwise the cached details of an earlier cycle are kept
unchanged. -/
theorem C6_details_cadence (env : CoordEnv) (now : Int) (st : CoordState)
    (devs : List Device) (hdir : env.directory = .ok devs) :
    (((async_update_data env now st).2).details =
      if detailsStale now st then
        fetchShadows env.detailsFetch ((buildDeviceMap devs).map Prod.fst)
      else st.details)
    ∧ (((async_update_data env now st).2).detailsLastUpdate =
        if detailsStale now st then some now else st.detailsLastUpdate)
    ∧ (detailsStale now st = true ↔
        st.detailsLastUpdate = none ∨
          ∃ l, st.detailsLastUpdate = some l ∧ now - l > 300) := by
  refine ⟨?_, ?_, ?_⟩
  · cases hp : env.persistTokens <;> simp [async_update_data, hdir, hp]
  · cases hp : env.persistTokens <;> simp [async_update_data, hdir, hp]
  · cases hl : st.detailsLastUpdate with
    | none => simp [detailsStale, hl]
    | some l => simp [detailsStale, hl]

/-- C6 witness: on a fresh coordinator (no prior details fetch) the cycle
refreshes details and stamps the time. -/
theorem C6_details_cadence_witness :
    (((async_update_data C4wEnv 0 emptyCoordState).2).details =
      if detailsStale 0 emptyCoordState then
        fetchShadows C4wEnv.detailsFetch
          ((buildDeviceMap [⟨some "a", none, none⟩,
            ⟨some "b", none, none⟩]).map Prod.fst)
      else emptyCoordState.details)
    ∧ (((async_update_data C4wEnv 0 emptyCoordState).2).detailsLastUpdate =
        if detailsStale 0 emptyCoordState then some 0
        else emptyCoordState.detailsLastUpdate)
    ∧ (detailsStale 0 emptyCoordState = true ↔
        emptyCoordState.detailsLastUpdate = none ∨
          ∃ l, emptyCoordState.detailsLastUpdate = some l ∧ 0 - l > 300) :=
  C6_details_cadence C4wEnv 0 emptyCoordState
    [⟨some "a", none, none⟩, ⟨some "b", none, none⟩] rfl

/-- C5, counterexample to the claim as stated. On a cache-miss,
`get_devices` succeeds while issuing two authenticated HTTP requests —
the profile GET of `/users/me` and the device GET of `/devices` — so two
consecutive calls do not issue "exactly one network call". -/
theorem C5_counterexample :
    (get_devices C5env 0 C5st).1 = .ok [⟨some "d1", none, none⟩]
    ∧ (get_devices C5env 0 C5st).2.2.1.length = 2 := by
  exact ⟨rfl, rfl⟩

/-- C5 (amended): `get_devices` is lazily filled and idempotent at the
level of fetch operations: with an empty cache, a successful first call
performs exactly one `list_devices` fetch (which may itself issue several
HTTP requests while probing endpoints), and the second call returns the
same cached list with no network activity at all — an empty request
trace and zero `list_devices` invocations — leaving the state unchanged. -/
theorem C5_cached_devices (env : ClientEnv) (now : Int) (st : ClientState)
    (l : List Device)
    (hnone : st.devices = none)
    (hfirst : (get_devices env now st).1 = .ok l) :
    (get_devices env now st).2.2.2 = 1
    ∧ get_devices env now ((get_devices env now st).2.1) =
        (.ok l, (get_devices env now st).2.1, [], 0) := by
  rcases hld : list_devices env now st with ⟨res, st₁, tr⟩
  cases res with
  | error e => simp [get_devices, hnone, hld] at hfirst
  | ok ds =>
    have hdev : st₁.devices = some ds := by
      have h0 := list_devices_ok_devices env now st ds (by rw [hld])
      rw [hld] at h0; exact h0
    have h1 : get_devices env now st =
        (.ok (pyListOr st₁.devices), st₁, tr, 1) := by
      simp [get_devices, hnone, hld]
    rw [h1] at hfirst ⊢
    have hl : pyListOr st₁.devices = l := by
      simpa using hfirst
    refine ⟨rfl, ?_⟩
    rw [hdev] at hl
    simp only [pyListOr] at hl
    simp [get_devices, hdev, hl, pyListOr]

/-- C5 witness: in the environment whose `/devices` endpoint works, the
first call fetches once and the second call is served from the cache. -/
theorem C5_cached_devices_witness :
    (get_devices C5env 0 C5st).2.2.2 = 1
    ∧ get_devices C5env 0 ((get_devices C5env 0 C5st).2.1) =
        (.ok [⟨some "d1", none, none⟩], (get_devices C5env 0 C5st).2.1,
         [], 0) :=
  C5_cached_devices C5env 0 C5st [⟨some "d1", none, none⟩] rfl rfl

/-- C7, counterexample to the claim as stated. A cycle whose directory
and shadow fetches succeed but whose token-persistence step raises is
reported as failed — yet the device cache has already been overwritten
with the new directory (`"b"` replacing the previously known `"a"`), so
a failed cycle does not always retain the prior cached state exactly. -/
theorem C7_counterexample :
    (async_update_data C7env 1000 C7st).1 =
      .error "Error communicating with Moen API: store failed"
    ∧ (async_update_data C7env 1000 C7st).2.devices ≠ C7st.devices := by
  exact ⟨rfl, by decide⟩

/-- C7 (amended): a failing cycle is always reported as failed; when the
failure is the directory fetch — the first step, before any cache
assignment — the previously known good caches (devices, shadows, details)
are retained exactly as they were. A failure in a later step (such as
token persistence) still reports failure, but the caches may then already
hold the values computed during the failed cycle. -/
theorem C7_failure_retention (env : CoordEnv) (now : Int)
    (st : CoordState) :
    (∀ e, env.directory = .error e →
       async_update_data env now st =
         (.error ("Error communicating with Moen API: " ++ e), st))
    ∧ (∀ e, env.persistTokens = .error e →
        ∃ e2, (async_update_data env now st).1 = .error e2) := by
  constructor
  · intro e he; simp [async_update_data, he]
  · intro e he
    cases hdir : env.directory with
    | error e3 =>
      exact ⟨"Error communicating with Moen API: " ++ e3,
        by simp [async_update_data, hdir]⟩
    | ok devs =>
      exact ⟨"Error communicating with Moen API: " ++ e,
        by simp [async_update_data, hdir, he]⟩

/-- C7 witness: a cycle whose directory fetch raises reports failure and
leaves the caches untouched. -/
theorem C7_failure_retention_witness :
    async_update_data
        ⟨.error "boom", fun _ => .ok ({} : Jdict),
         fun _ => .ok ({} : Jdict), .ok ()⟩ 0 C7st =
      (.error "Error communicating with Moen API: boom", C7st) :=
  (C7_failure_retention
    ⟨.error "boom", fun _ => .ok ({} : Jdict),
     fun _ => .ok ({} : Jdict), .ok ()⟩ 0 C7st).1 "boom" rfl

/-- C8: the scenario shadow
`{"state":{"reported":{"command":"run","temperature":22.5}}}` projects to
faucet state `"running"` and temperature `22.5`; a reported command
`"stop"` projects to `"stopped"`; and any reported dict whose command is
missing or neither `"run"` nor `"stop"` projects to `"idle"`. -/
theorem C8_entity_projection :
    (faucetStateOf (some runShadow) = some "running")
    ∧ (∀ prev, temperatureOf (some runShadow) prev =
        some (JVal.num (22.5 : ℚ)))
    ∧ (∀ rep : Jdict, Jdict.get rep "command" = some (JVal.str "stop") →
        faucetStateOf (some (shadowWithReported rep)) = some "stopped")
    ∧ (∀ rep : Jdict, isRunStop (Jdict.get rep "command") = false →
        faucetStateOf (some (shadowWithReported rep)) = some "idle") := by
  refine ⟨rfl, fun prev => rfl, ?_, ?_⟩
  · intro rep h
    simp only [Jdict.get] at h
    simp [faucetStateOf, shadowWithReported, reportedOf, pyGetDict,
      Jdict.getD, Jdict.get, h]
  · intro rep h
    simp only [Jdict.get] at h
    rcases hc : List.lookup "command" rep with _ | v
    · simp [faucetStateOf, shadowWithReported, reportedOf, pyGetDict,
        Jdict.getD, Jdict.get, hc]
    · rw [hc] at h
      cases v with
      | str s =>
        simp only [isRunStop, Bool.or_eq_false_iff,
          decide_eq_false_iff_not] at h
        simp [faucetStateOf, shadowWithReported, reportedOf, pyGetDict,
          Jdict.getD, Jdict.get, hc, h.1, h.2]
      | num q =>
        simp [faucetStateOf, shadowWithReported, reportedOf, pyGetDict,
          Jdict.getD, Jdict.get, hc]
      | boolean b =>
        simp [faucetStateOf, shadowWithReported, reportedOf, pyGetDict,
          Jdict.getD, Jdict.get, hc]
      | dict m =>
        simp [faucetStateOf, shadowWithReported, reportedOf, pyGetDict,
          Jdict.getD, Jdict.get, hc]

/-- C8 witness: a reported `"stop"` command projects to `"stopped"`, and
an empty reported dict (missing command) projects to `"idle"`. -/
theorem C8_entity_projection_witness :
    faucetStateOf
        (some (shadowWithReported [("command", JVal.str "stop")])) =
      some "stopped"
    ∧ faucetStateOf (some (shadowWithReported ([] : Jdict))) =
      some "idle" :=
  ⟨C8_entity_projection.2.2.1 [("command", JVal.str "stop")] rfl,
   C8_entity_projection.2.2.2 ([] : Jdict) rfl⟩

/-- C9, counterexample to the claim as stated. `ensure_auth` takes no
lock, so two concurrent callers that both evaluate the token check before
either logs in (`check₁, check₂, login₁, login₂`) each issue a network
login: both callers complete (program counters reach 2) but the login
count is 2, not 1. -/
theorem C9_counterexample :
    (runSchedule (some ⟨200, some ⟨some "t1", some 3600⟩⟩) 0 [0, 1, 0, 1]
        ⟨none, 0, none⟩ 0 [0, 0]).2.1 = 2
    ∧ ¬ ((runSchedule (some ⟨200, some ⟨some "t1", some 3600⟩⟩) 0
        [0, 1, 0, 1] ⟨none, 0, none⟩ 0 [0, 0]).2.1 = 1)
    ∧ (runSchedule (some ⟨200, some ⟨some "t1", some 3600⟩⟩) 0 [0, 1, 0, 1]
        ⟨none, 0, none⟩ 0 [0, 0]).2.2 = [2, 2] := by
  exact ⟨rfl, by decide, rfl⟩

/-- C9 (amended): the client has no refresh lock, so truly simultaneous
callers may each issue a login; only when the calls are serialized do
`n + 1` consecutive `ensure_auth` calls on an expired or absent token
trigger exactly one network login — the first call re-authenticates and,
provided the response carries a non-empty token with
`expires_in ≥ 60`, every later call sees a valid token and performs no
login. -/
theorem C9_single_login_serialized (resp : Option LoginResponse)
    (now : Int) (st : ClientState) (n : Nat) (r : LoginResponse)
    (tj : TokenJson) (a : String)
    (hneed : needsAuth now st = true)
    (hr : resp = some r) (hs : r.status = 200)
    (htf : r.tokenField = some tj) (ha : tj.access_token = some a)
    (hae : a.isEmpty = false)
    (he : 60 ≤ tj.expires_in.getD 3600) :
    (ensureAuthSeq resp now (n + 1) st).2 = 1 := by
  have hlc : login resp now st =
      (.ok (), { st with token := some a,
                         expiry := now + tj.expires_in.getD 3600 - 60 }) := by
    subst hr; simp [login, try_login_endpoint, hs, htf, ha]
  have hst₁ : needsAuth now
      { st with token := some a,
                expiry := now + tj.expires_in.getD 3600 - 60 } = false := by
    simp only [needsAuth, pyTruthyStr, hae, Bool.not_false, Bool.not_true,
      Bool.false_or]
    exact decide_eq_false (by omega)
  simp only [ensureAuthSeq, hneed, ensure_auth, if_true, hlc,
    ensureAuthSeq_stable resp now n _ hst₁]

/-- C9 witness: three serialized `ensure_auth` calls on a fresh client
with a working login endpoint perform exactly one login. -/
theorem C9_single_login_serialized_witness :
    (ensureAuthSeq (some ⟨200, some ⟨some "t1", some 3600⟩⟩) 0 3
        ⟨none, 0, none⟩).2 = 1 :=
  C9_single_login_serialized (some ⟨200, some ⟨some "t1", some 3600⟩⟩) 0
    ⟨none, 0, none⟩ 2 ⟨200, some ⟨some "t1", some 3600⟩⟩
    ⟨some "t1", some 3600⟩ "t1" rfl rfl rfl rfl rfl rfl (by decide)

end Moen
